import Mathlib

/-!
Shallow embedding of the `smot` repository's build-management core and the
notebook path helpers, together with proofs of the specified properties.

The `smot.training.build_management` module and the `smot.common.runtime`
reflection helpers are present in the repository only through their tests,
so their definitions below are modelled from the specification; the
`smot.common.runtime.notebooks` module is translated directly from its
source file.
-/

namespace Smot

/-- Model of `os.path.join` (POSIX, two arguments): if the second component is
absolute it replaces the first; otherwise the two are joined with a single
path separator, which is omitted when the first component is empty or
already ends with the separator. -/
def pathJoin (a b : String) : String :=
  if b.toList.head? == some '/' then b
  else if a == "" || a.toList.getLast? == some '/' then a ++ b
  else a ++ "/" ++ b

/-- Core of `os.path.dirname` on the reversed character list: everything up to
and including the last separator, with trailing separators stripped unless the
head consists only of separators. -/
def dirnameAux (rev : List Char) : List Char :=
  let base := rev.drop (rev.takeWhile (fun c => c != '/')).length
  if base.all (fun c => c == '/') then base
  else base.dropWhile (fun c => c == '/')

/-- Model of `os.path.dirname` (POSIX): the portion of the path before the
final separator, as computed by `posixpath.dirname`. -/
def dirname (p : String) : String :=
  String.mk (dirnameAux p.toList.reverse).reverse

/-- Model of `os.path.realpath` for canonical inputs: a relative path is
resolved against the current working directory. Symbolic-link resolution and
dot-segment normalisation are identities on the canonical (absolute,
already-normalised) working directories considered here and are not
modelled. -/
def realpath (cwd p : String) : String :=
  pathJoin cwd p

/-- Modelled from the spec: `reflection.module_name_as_relative_path` — a
module's dotted, namespaced name converted into a path-shaped relative string
by replacing the namespace separator with the path separator. A module is
represented by its dotted name. -/
def module_name_as_relative_path (m : String) : String :=
  String.mk (m.toList.map (fun c => if c == '.' then '/' else c))

/-- Modelled from the spec: a `ModelBuildTarget` is an immutable pair of a
build root and a target id, each exposed verbatim by an accessor. -/
structure ModelBuildTarget where
  build_root : String
  target_id : String
  deriving Repr, DecidableEq

/-- Modelled from the spec: `ModelBuildTarget.model_save_path` returns
`join(build_root, target_id)`, recomputed from the two fields on every call
(never cached). -/
def ModelBuildTarget.model_save_path (t : ModelBuildTarget) : String :=
  pathJoin t.build_root t.target_id

/-- Modelled from the spec: `ModelBuildTarget.save_model` calls the saver
(default: the model's own save capability) once with the model and
`filepath = model_save_path()`, and returns that path. Delegated side effects
are modelled by explicit world passing: a saver transforms a world state. -/
def ModelBuildTarget.save_model {M W : Type} (t : ModelBuildTarget)
    (model : M) (saver : M → String → W → W) (w : W) : W × String :=
  (saver model t.model_save_path w, t.model_save_path)

/-- Modelled from the spec: `ModelBuildTarget.load_model` calls the loader
once with `filepath = model_save_path()` and returns exactly the loader's
result. A loader transforms a world state and produces a model. -/
def ModelBuildTarget.load_model {W M : Type} (t : ModelBuildTarget)
    (loader : String → W → W × M) (w : W) : W × M :=
  loader t.model_save_path w

/-- A saver that records each invocation (model and filepath) in a log,
used to observe how many times and with which arguments `save_model`
invokes the delegated save capability. -/
def loggingSaver {M : Type} (model : M) (path : String)
    (log : List (M × String)) : List (M × String) :=
  log ++ [(model, path)]

/-- A loader that records each requested filepath in a log and produces a
fixed model, used to observe `load_model`'s delegation. -/
def loggingLoader {M : Type} (result : M) (path : String)
    (log : List String) : List String × M :=
  (log ++ [path], result)

/-- Modelled from the spec: the active call stack above the resolver's entry
point, one entry per frame, each holding the frame's enclosing module (by
dotted name) when one can be determined. Frame `0` is the immediate caller. -/
def CallStack : Type := List (Option String)

/-- Modelled from the spec: walking the active call stack to the appropriate
frame — the frame selected by the stack-depth offset — and returning its
enclosing module when one can be determined. -/
def calling_module (stack : CallStack) (stack_depth : Nat) : Option String :=
  match List.get? (stack : List (Option String)) stack_depth with
  | some (some m) => some m
  | _ => none

/-- Modelled from the spec: a `ModelBuildCache` is a factory wrapping one
build root; it has no other state. -/
structure ModelBuildCache where
  build_root : String
  deriving Repr, DecidableEq

/-- Modelled from the spec: `ModelBuildCache.target` resolves a target id —
from the module's path-shaped location joined with `name` when a module is
given; from the caller's module (found by stack introspection at the given
stack-depth offset) joined with `name` when `relative` is set, failing with a
"caller location unavailable" error when no enclosing module can be
determined; and as `name` verbatim otherwise — and returns a
`ModelBuildTarget` binding the cache's root to the resolved id. -/
def ModelBuildCache.target (cache : ModelBuildCache) (name : String)
    (module : Option String) (relative : Bool)
    (stack : CallStack) (stack_depth : Nat) :
    Except String ModelBuildTarget :=
  match module with
  | some m =>
    Except.ok ⟨cache.build_root, pathJoin (module_name_as_relative_path m) name⟩
  | none =>
    if relative then
      match calling_module stack stack_depth with
      | some m =>
        Except.ok
          ⟨cache.build_root, pathJoin (module_name_as_relative_path m) name⟩
      | none => Except.error "caller location unavailable"
    else
      Except.ok ⟨cache.build_root, name⟩

/-- Modelled from the spec: `build_management.model_build_dir` is the default
build root, `<repository source root>/build/models`. The source root is a
parameter of the model. -/
def model_build_dir (source_root : String) : String :=
  source_root ++ "/build/models"

/-- Modelled from the spec: `build_management.build_cache` is the process-wide
cache, wrapping the default build root. -/
def build_cache (source_root : String) : ModelBuildCache :=
  ⟨model_build_dir source_root⟩

/-- Modelled from the spec: `reflection_testlib.apply` forwards a call to the
resolver through one intermediate stack frame; the frame the forwarder
contributes is pushed onto the stack the resolver observes. -/
def forwardedTarget (cache : ModelBuildCache) (name : String)
    (relative : Bool) (forwarderFrame : Option String)
    (stack : CallStack) (stack_depth : Nat) :
    Except String ModelBuildTarget :=
  cache.target name none relative (forwarderFrame :: stack) stack_depth

/-- From `smot/common/runtime/notebooks.py`: `notebook_path` returns
`os.path.realpath("__file__")` — the literal string `"__file__"` resolved
against the process's current working directory, which is a parameter of the
model. -/
def notebook_path (cwd : String) : String :=
  realpath cwd "__file__"

/-- From `smot/common/runtime/notebooks.py`: `notebook_dir` is the directory
part of `notebook_path`. -/
def notebook_dir (cwd : String) : String :=
  dirname (notebook_path cwd)

/-- From `smot/common/runtime/notebooks.py`: `notebook_relative_dir` strips
the repository source root (plus a separator) from the front of
`notebook_dir` when present (the `str_fns.removeprefix` helper, inlined: it
drops the prefix when the string starts with it and is the identity
otherwise). The source root is a parameter of the model. -/
def notebook_relative_dir (cwd source_root : String) : String :=
  if (source_root ++ "/").toList.isPrefixOf (notebook_dir cwd).toList then
    String.mk ((notebook_dir cwd).toList.drop (source_root ++ "/").toList.length)
  else notebook_dir cwd

/-- From `smot/common/runtime/notebooks.py`: `output_path` joins the build
root (a parameter of the model, `build_paths.build_root()` in the source)
with `notebook_relative_dir` and the output name. The `os.makedirs` side
effect creates directories only and does not affect the returned path. -/
def output_path (cwd source_root broot name : String) : String :=
  pathJoin (pathJoin broot (notebook_relative_dir cwd source_root)) name


lemma takeWhile_append_cons (p : Char → Bool) (a : List Char) (x : Char) (b : List Char)
    (ha : ∀ c ∈ a, p c = true) (hx : p x = false) :
    (a ++ x :: b).takeWhile p = a := by
  induction a with
  | nil => simp [List.takeWhile_cons, hx]
  | cons c t ih =>
    have hc : p c = true := ha c (List.mem_cons_self c t)
    simp [List.cons_append, List.takeWhile_cons, hc,
      ih (fun d hd => ha d (List.mem_cons_of_mem c hd))]

lemma dirnameAux_file (c : Char) (t : List Char) (hc : c ≠ '/') :
    dirnameAux ("__file__".toList.reverse ++ '/' :: c :: t) = c :: t := by
  have htw : ("__file__".toList.reverse ++ '/' :: c :: t).takeWhile (fun ch => ch != '/')
      = "__file__".toList.reverse :=
    takeWhile_append_cons _ _ _ _ (by decide) (by decide)
  have hcb : (c == '/') = false := beq_eq_false_iff_ne.mpr hc
  unfold dirnameAux
  rw [htw]
  rw [List.drop_left]
  simp [List.all_cons, List.dropWhile_cons, hcb]

lemma toList_append (a b : String) : (a ++ b).toList = a.toList ++ b.toList :=
  String.data_append a b

lemma dirname_append_file (cwd : String) (h1 : cwd.toList ≠ [])
    (h2 : cwd.toList.getLast? ≠ some '/') :
    dirname (cwd ++ "/__file__") = cwd := by
  obtain ⟨c, t, hct⟩ : ∃ c t, cwd.toList.reverse = c :: t := by
    cases hrev : cwd.toList.reverse with
    | nil => exact absurd (List.reverse_eq_nil_iff.mp hrev) h1
    | cons c t => exact ⟨c, t, rfl⟩
  have hc : c ≠ '/' := by
    intro e
    apply h2
    rw [← List.head?_reverse, hct, e]
    rfl
  have hlist : (cwd ++ "/__file__").toList.reverse
      = "__file__".toList.reverse ++ '/' :: cwd.toList.reverse := by
    rw [toList_append]
    show (cwd.toList ++ ('/' :: "__file__".toList)).reverse = _
    rw [List.reverse_append]
    simp [List.reverse_cons, List.append_assoc]
  unfold dirname
  rw [hlist, hct, dirnameAux_file c t hc, ← hct, List.reverse_reverse]
  rfl

lemma notebook_path_eq (cwd : String) (h1 : cwd.toList ≠ [])
    (h2 : cwd.toList.getLast? ≠ some '/') :
    notebook_path cwd = cwd ++ "/__file__" := by
  unfold notebook_path realpath pathJoin
  have hb : ("__file__".toList.head? == some '/') = false := by decide
  have he : (cwd == "") = false := by
    refine beq_eq_false_iff_ne.mpr ?_
    intro e
    apply h1
    rw [e]
    rfl
  have hl : (cwd.toList.getLast? == some '/') = false := beq_eq_false_iff_ne.mpr h2
  have c1 : ¬ (("__file__".toList.head? == some '/') = true) := by simp [hb]
  have c2 : ¬ ((cwd == "" || cwd.toList.getLast? == some '/') = true) := by
    simp [he]
    exact h2
  rw [if_neg c1, if_neg c2, String.append_assoc]
  congr 1


/-- Claim C1: for every `ModelBuildTarget` built from a build root `r` and a target
id `i`, `model_save_path` returns `join(r, i)`, recomputed from the current
field values on each call; in particular for root `"foo"` and id `"bar"` it
returns `"foo/bar"`. -/
theorem modelBuildTarget_save_path_joins (r i : String) :
    (ModelBuildTarget.mk r i).model_save_path = pathJoin r i ∧
    (ModelBuildTarget.mk "foo" "bar").model_save_path = "foo/bar" :=
  ⟨rfl, by decide⟩

/-- Claim C2: for every non-empty name, `target` with no module and
`relative = false` yields a target whose id is the name verbatim and whose
build root is the cache's build root. -/
theorem target_plain_name_verbatim (cache : ModelBuildCache) (name : String)
    (stack : CallStack) (d : Nat) (h : name ≠ "") :
    cache.target name none false stack d =
      Except.ok ⟨cache.build_root, name⟩ := rfl

/-- Witness for C2 at a concrete cache and name. -/
theorem target_plain_name_verbatim_witness :
    ("foo/bar" : String) ≠ "" ∧
    (build_cache "/src").target "foo/bar" none false [] 0 =
      Except.ok ⟨(build_cache "/src").build_root, "foo/bar"⟩ :=
  ⟨by decide, target_plain_name_verbatim (build_cache "/src") "foo/bar" [] 0 (by decide)⟩

/-- Claim C3: for every name and module, `target` with an explicit module yields a
target whose id is the module's path-shaped location joined with the name. -/
theorem target_module_prefix (cache : ModelBuildCache) (name m : String)
    (stack : CallStack) (d : Nat) :
    cache.target name (some m) false stack d =
      Except.ok ⟨cache.build_root, pathJoin (module_name_as_relative_path m) name⟩ :=
  rfl

/-- Claim C4: `target` with `relative = true` and no module resolves the caller's
module by walking the call stack, and the target id is the caller module's
path-shaped location joined with the name. -/
theorem target_relative_caller_prefix (cache : ModelBuildCache) (name : String)
    (stack : CallStack) (m : String) (h : calling_module stack 0 = some m) :
    cache.target name none true stack 0 =
      Except.ok ⟨cache.build_root, pathJoin (module_name_as_relative_path m) name⟩ := by
  simp [ModelBuildCache.target, h]

/-- Witness for C4 at a concrete stack whose immediate caller is the test
module. -/
theorem target_relative_caller_prefix_witness :
    calling_module [some "smot.training.build_management_test"] 0 =
      some "smot.training.build_management_test" ∧
    (build_cache "/src").target "foo/bar" none true
        [some "smot.training.build_management_test"] 0 =
      Except.ok ⟨(build_cache "/src").build_root,
        pathJoin (module_name_as_relative_path "smot.training.build_management_test")
          "foo/bar"⟩ :=
  ⟨rfl, target_relative_caller_prefix (build_cache "/src") "foo/bar"
    [some "smot.training.build_management_test"] "smot.training.build_management_test" rfl⟩

/-- Claim C5: forwarding a `relative = true` resolution through one intermediate
frame with a stack-depth offset of `1` yields exactly the result of a direct
call with offset `0`: the offset compensates for the forwarding frame. -/
theorem forwarded_target_offset_compensates (cache : ModelBuildCache)
    (name : String) (fframe : Option String) (stack : CallStack) :
    forwardedTarget cache name true fframe stack 1 =
      cache.target name none true stack 0 := rfl

/-- Claim C6: `save_model` applies the saver exactly once, to the model and to the
`model_save_path` value, and returns that path; with a logging saver the call
log records exactly one invocation with those arguments. -/
theorem save_model_delegates {M W : Type} (t : ModelBuildTarget) (model : M)
    (saver : M → String → W → W) (w : W) :
    t.save_model model saver w = (saver model t.model_save_path w, t.model_save_path) ∧
    ∀ log : List (M × String),
      t.save_model model loggingSaver log =
        (log ++ [(model, t.model_save_path)], t.model_save_path) :=
  ⟨rfl, fun _ => rfl⟩

/-- Claim C7: `load_model` applies the loader exactly once, to the
`model_save_path` value, and returns the loader's result unmodified; with a
logging loader the call log records exactly one invocation with that path. -/
theorem load_model_delegates {W M : Type} (t : ModelBuildTarget)
    (loader : String → W → W × M) (w : W) (result : M) :
    t.load_model loader w = loader t.model_save_path w ∧
    ∀ log : List String,
      t.load_model (loggingLoader result) log = (log ++ [t.model_save_path], result) :=
  ⟨rfl, fun _ => rfl⟩

/-- Claim C8: target resolution is deterministic — two calls with the same build
root, name, module, relative flag, stack and stack depth produce equal
results, and in particular equal target ids and model save paths. -/
theorem target_deterministic (cache : ModelBuildCache) (name : String)
    (module : Option String) (relative : Bool) (stack : CallStack) (d : Nat)
    (t1 t2 : Except String ModelBuildTarget)
    (h1 : t1 = cache.target name module relative stack d)
    (h2 : t2 = cache.target name module relative stack d) :
    t1 = t2 ∧ ∀ a b, t1 = Except.ok a → t2 = Except.ok b →
      a.target_id = b.target_id ∧ a.model_save_path = b.model_save_path := by
  subst h1
  subst h2
  refine ⟨rfl, ?_⟩
  intro a b ha hb
  rw [ha] at hb
  injection hb with h
  subst h
  exact ⟨rfl, rfl⟩

/-- Witness for C8 at a concrete cache, name and stack. -/
theorem target_deterministic_witness :
    ((Except.ok (ModelBuildTarget.mk "r" "x") : Except String ModelBuildTarget) =
      (ModelBuildCache.mk "r").target "x" none false [] 0) ∧
    ((Except.ok (ModelBuildTarget.mk "r" "x") : Except String ModelBuildTarget) =
        Except.ok (ModelBuildTarget.mk "r" "x") ∧
      ∀ a b,
        (Except.ok (ModelBuildTarget.mk "r" "x") : Except String ModelBuildTarget) =
          Except.ok a →
        (Except.ok (ModelBuildTarget.mk "r" "x") : Except String ModelBuildTarget) =
          Except.ok b →
        a.target_id = b.target_id ∧ a.model_save_path = b.model_save_path) :=
  ⟨rfl, target_deterministic (ModelBuildCache.mk "r") "x" none false [] 0 _ _ rfl rfl⟩

/-- Claim C9: when `relative = true` and no enclosing module can be determined for
the inspected frame, resolution fails with the "caller location unavailable"
error instead of producing a target with an empty prefix. -/
theorem target_relative_unavailable_errors (cache : ModelBuildCache)
    (name : String) (stack : CallStack) (d : Nat)
    (h : calling_module stack d = none) :
    cache.target name none true stack d =
      Except.error "caller location unavailable" := by
  simp [ModelBuildCache.target, h]

/-- Witness for C9 on the empty stack. -/
theorem target_relative_unavailable_errors_witness :
    calling_module [] 0 = none ∧
    (ModelBuildCache.mk "r").target "x" none true [] 0 =
      Except.error "caller location unavailable" :=
  ⟨rfl, target_relative_unavailable_errors (ModelBuildCache.mk "r") "x" [] 0 rfl⟩

/-- Claim C10: `notebook_path` resolves the literal string `"__file__"` against the
current working directory (so it names `<cwd>/__file__`, not any actual
source file), `notebook_dir` therefore returns the current working directory,
and `output_path` places its output in a directory determined by the working
directory of the calling process. -/
theorem notebook_path_is_cwd_file (cwd : String) (h1 : cwd.toList ≠ [])
    (h2 : cwd.toList.getLast? ≠ some '/') :
    notebook_path cwd = cwd ++ "/__file__" ∧
    notebook_dir cwd = cwd ∧
    ∀ source_root broot name,
      output_path cwd source_root broot name =
        pathJoin (pathJoin broot
          (if (source_root ++ "/").toList.isPrefixOf cwd.toList then
            String.mk (cwd.toList.drop (source_root ++ "/").toList.length)
          else cwd)) name := by
  have hp := notebook_path_eq cwd h1 h2
  have hd : notebook_dir cwd = cwd := by
    unfold notebook_dir
    rw [hp]
    exact dirname_append_file cwd h1 h2
  refine ⟨hp, hd, ?_⟩
  intro source_root broot name
  unfold output_path notebook_relative_dir
  rw [hd]

/-- Witness for C10 at the concrete working directory `"/work"`. -/
theorem notebook_path_is_cwd_file_witness :
    ("/work" : String).toList ≠ [] ∧
    ("/work" : String).toList.getLast? ≠ some '/' ∧
    (notebook_path "/work" = "/work" ++ "/__file__" ∧
      notebook_dir "/work" = "/work" ∧
      ∀ source_root broot name,
        output_path "/work" source_root broot name =
          pathJoin (pathJoin broot
            (if (source_root ++ "/").toList.isPrefixOf ("/work" : String).toList then
              String.mk (("/work" : String).toList.drop (source_root ++ "/").toList.length)
            else "/work")) name) :=
  ⟨by decide, by decide, notebook_path_is_cwd_file "/work" (by decide) (by decide)⟩

end Smot
